import Mathlib

set_option linter.unusedVariables false
set_option linter.unnecessarySimpa false

/-!
Shallow embedding of the `SpotifyAuth` class from `src/auth/spotify_auth.py`.

The class sequences an OAuth client, a Token Store and a Cache Store.  The
collaborators' own code is not part of the repository, so they are modelled
from the spec's interface section:

* OAuth client: `get_authorize_url`, `get_access_token(code)` and
  `refresh_access_token(refresh_token)`; the two exchanges may raise, which a
  pure model renders as returning `none`.
* Token Store: `load() -> TokenRecord | absent`, `save(TokenRecord)`,
  `delete()`.  It is modelled as an `Option TokenRecord` cell together with a
  trace of the records passed to `save`, so "saved exactly once" is the trace
  growing by one element.
* Cache Store: `clear_all()`, modelled as a list of entries that clearing
  empties.  The spec's `StoreError` (a store operation raising) is modelled
  by boolean fault flags on the operations `disconnect`/`clear_cache` use.

Python truthiness matters in two places: `x or y` on the credential strings
(empty string and `None` are falsy) and `token_info or self._token_info`
(where `None` is falsy; a typed record is always truthy here).
-/

/-- The `token_info` dict: bearer `access_token`, optional `refresh_token`
(the Python code tests `"refresh_token" not in token_to_refresh`), and the
absolute expiry instant `expires_at` in unix seconds. -/
structure TokenRecord where
  access_token : String
  refresh_token : Option String
  expires_at : Int
deriving DecidableEq

/-- In-memory state of the manager: the `_authenticated` flag and the held
`_token_info` record. -/
structure AuthState where
  authenticated : Bool
  token_info : Option TokenRecord
deriving DecidableEq

/-- State of the two persistent collaborators: the Token Store cell read by
`load_token`, the trace of records handed to `save_token`, and the Cache
Store contents. -/
structure Stores where
  token_store : Option TokenRecord
  saves : List TokenRecord
  cache : List String
deriving DecidableEq

/-- The OAuth client collaborator.  `get_access_token` and
`refresh_access_token` return `none` when the provider exchange raises. -/
structure OAuthClient where
  get_authorize_url : String
  get_access_token : String → Option TokenRecord
  refresh_access_token : String → Option TokenRecord

namespace SpotifyAuth

/-- Python truthiness of an optional string: `None` and `""` are falsy. -/
def truthy : Option String → Bool
  | none => false
  | some s => decide (s ≠ "")

/-- Python `a or b` on optional strings. -/
def py_or (a b : Option String) : Option String :=
  if truthy a then a else b

/-- Default used by `os.getenv("SPOTIFY_REDIRECT_URI", ...)` in `__init__`. -/
def default_redirect_uri : String := "http://127.0.0.1:8000/callback"

/-- The credential-resolution and validation part of `__init__`: each value is
the explicit argument `or` the environment variable (the redirect URI's
`getenv` carries a default).  When some resolved value is falsy, construction
raises `ValueError` naming the missing fields, modelled as `Except.error`
carrying the `missing` list in the order the code appends. -/
def init (client_id client_secret redirect_uri : Option String)
    (getenv : String → Option String) :
    Except (List String) (String × String × String) :=
  let cid := py_or client_id (getenv "SPOTIFY_CLIENT_ID")
  let csec := py_or client_secret (getenv "SPOTIFY_CLIENT_SECRET")
  let ruri := py_or redirect_uri
    (some ((getenv "SPOTIFY_REDIRECT_URI").getD default_redirect_uri))
  if truthy cid && truthy csec && truthy ruri then
    Except.ok (cid.getD "", csec.getD "", ruri.getD "")
  else
    Except.error
      ((if truthy cid then [] else ["SPOTIFY_CLIENT_ID"]) ++
       (if truthy csec then [] else ["SPOTIFY_CLIENT_SECRET"]) ++
       (if truthy ruri then [] else ["SPOTIFY_REDIRECT_URI"]))

/-- `_is_token_expired`: `token_info["expires_at"] - now < 60`. -/
def is_token_expired (token_info : TokenRecord) (now : Int) : Bool :=
  decide (token_info.expires_at - now < 60)

/-- The staleness predicate as the spec words it: stale iff
`expires_at - now < 60`. -/
def spec_is_stale (t : TokenRecord) (now : Int) : Prop :=
  t.expires_at - now < 60

/-- The Python `token_info or self._token_info` (a record is truthy, `None`
is falsy). -/
def token_to_refresh (s : AuthState) (token_info : Option TokenRecord) :
    Option TokenRecord :=
  match token_info with
  | some t => some t
  | none => s.token_info

/-- `refresh_token(token_info=None)`.  `token_to_refresh` is the Python
`token_info or self._token_info`; a missing record or missing
`"refresh_token"` key fails fast; otherwise the refresh exchange runs and, on
success, the new record is saved and installed.  Any exchange exception is
caught (the `except` branch), so the model is total, returning `none`. -/
def refresh_token (oauth : OAuthClient) (s : AuthState) (st : Stores)
    (token_info : Option TokenRecord) :
    Option TokenRecord × AuthState × Stores :=
  match token_to_refresh s token_info with
  | none => (none, { authenticated := false, token_info := none }, st)
  | some t =>
    match t.refresh_token with
    | none => (none, { authenticated := false, token_info := none }, st)
    | some rt =>
      match oauth.refresh_access_token rt with
      | none => (none, { authenticated := false, token_info := none }, st)
      | some new_token =>
        (some new_token,
         { authenticated := true, token_info := some new_token },
         { st with token_store := some new_token, saves := st.saves ++ [new_token] })

/-- `handle_callback(code)`: exchange the code; on success save the record and
set state, returning `True`; the `except` branch clears state and returns
`False` (the save is not reached, so the stores are untouched). -/
def handle_callback (oauth : OAuthClient) (s : AuthState) (st : Stores)
    (code : String) : Bool × AuthState × Stores :=
  match oauth.get_access_token code with
  | none => (false, { authenticated := false, token_info := none }, st)
  | some token_info =>
    (true, { authenticated := true, token_info := some token_info },
     { st with token_store := some token_info, saves := st.saves ++ [token_info] })

/-- `get_token()`: `None` when unauthenticated or no record; on a stale record
run `self._token_info = self.refresh_token()` and return `None` if that is
falsy, else the held record's `access_token`. -/
def get_token (oauth : OAuthClient) (now : Int) (s : AuthState) (st : Stores) :
    Option String × AuthState × Stores :=
  if s.authenticated = false then (none, s, st)
  else
    match s.token_info with
    | none => (none, s, st)
    | some t =>
      if is_token_expired t now then
        let r := refresh_token oauth s st none
        match r.1 with
        | none => (none, { r.2.1 with token_info := none }, r.2.2)
        | some nt =>
          (some nt.access_token, { r.2.1 with token_info := some nt }, r.2.2)
      else (some t.access_token, s, st)

/-- `is_authenticated()`: with a held record and the flag set, `True` when the
record is not stale, else the result of an in-call refresh (the held record is
overwritten with the refresh result and the answer is its non-`None`-ness);
`False` otherwise. -/
def is_authenticated (oauth : OAuthClient) (now : Int) (s : AuthState)
    (st : Stores) : Bool × AuthState × Stores :=
  if s.authenticated then
    match s.token_info with
    | some t =>
      if is_token_expired t now then
        let r := refresh_token oauth s st none
        (r.1.isSome, { r.2.1 with token_info := r.1 }, r.2.2)
      else (true, s, st)
    | none => (false, s, st)
  else (false, s, st)

/-- `get_auth_url()`: delegates to the OAuth client, no state change. -/
def get_auth_url (oauth : OAuthClient) (s : AuthState) (st : Stores) :
    String × AuthState × Stores :=
  (oauth.get_authorize_url, s, st)

/-- `_load_saved_token()`: load the persisted record; refresh it first when
stale; when a record survives, install it and set the flag. -/
def load_saved_token (oauth : OAuthClient) (now : Int) (s : AuthState)
    (st : Stores) : AuthState × Stores :=
  match st.token_store with
  | none => (s, st)
  | some t0 =>
    let r :=
      if is_token_expired t0 now then refresh_token oauth s st (some t0)
      else (some t0, s, st)
    match r.1 with
    | some t => ({ authenticated := true, token_info := some t }, r.2.2)
    | none => (r.2.1, r.2.2)

/-- Full construction: the `__init__` credential check followed by
`_load_saved_token` from the freshly reset in-memory state. -/
def construct (client_id client_secret redirect_uri : Option String)
    (getenv : String → Option String) (oauth : OAuthClient) (now : Int)
    (st : Stores) : Except (List String) (AuthState × Stores) :=
  match init client_id client_secret redirect_uri getenv with
  | Except.error missing => Except.error missing
  | Except.ok _ =>
    Except.ok
      (load_saved_token oauth now { authenticated := false, token_info := none } st)

/-- `disconnect()`: delete the persisted token, clear the cache, reset the
in-memory state, return `True`; a `StoreError` from either store operation is
caught and turned into `False`, leaving whatever already happened in place.
The fault flags say whether the respective store call raises. -/
def disconnect (s : AuthState) (st : Stores)
    (delete_raises clear_raises : Bool) : Bool × AuthState × Stores :=
  if delete_raises then (false, s, st)
  else
    let st1 : Stores := { st with token_store := none }
    if clear_raises then (false, s, st1)
    else
      (true, { authenticated := false, token_info := none },
       { st1 with cache := [] })

/-- `clear_cache()`: clear the cache store only; a raising clear is caught and
turned into `False`. -/
def clear_cache (s : AuthState) (st : Stores) (clear_raises : Bool) :
    Bool × AuthState × Stores :=
  if clear_raises then (false, s, st)
  else (true, s, { st with cache := [] })

/-- `TokenManager.load_token` as the Token Store's `load()`. -/
def load_token (st : Stores) : Option TokenRecord :=
  st.token_store

/-- The in-memory state `refresh_token` leaves behind is determined by its
result: authenticated and holding the new record on success, reset on any
failure. -/
theorem refresh_token_state_eq (oauth : OAuthClient) (s : AuthState)
    (st : Stores) (arg : Option TokenRecord) :
    (refresh_token oauth s st arg).2.1 =
      { authenticated := (refresh_token oauth s st arg).1.isSome,
        token_info := (refresh_token oauth s st arg).1 } := by
  simp only [refresh_token]
  split
  · rfl
  · split
    · rfl
    · split <;> rfl

/-- C5: the staleness predicate the manager uses (`_is_token_expired`) holds
exactly when `expires_at - now < 60`. -/
theorem is_token_expired_iff_spec (t : TokenRecord) (now : Int) :
    is_token_expired t now = true ↔ spec_is_stale t now := by
  simp [is_token_expired, spec_is_stale]

/-- C2: when the record to refresh carries a refresh token but the OAuth
client's refresh exchange raises, `refresh_token` swallows the exception
(the model is total, so nothing propagates): it returns `none` and leaves the
manager unauthenticated with no held token. -/
theorem refresh_token_exchange_exception (oauth : OAuthClient) (s : AuthState)
    (st : Stores) (arg : Option TokenRecord) (t : TokenRecord) (rt : String)
    (harg : token_to_refresh s arg = some t)
    (hrt : t.refresh_token = some rt)
    (hexc : oauth.refresh_access_token rt = none) :
    (refresh_token oauth s st arg).1 = none ∧
    (refresh_token oauth s st arg).2.1 =
      { authenticated := false, token_info := none } := by
  simp [refresh_token, harg, hrt, hexc]

/-- C2 witness. -/
theorem refresh_token_exchange_exception_witness :
    (refresh_token ⟨"u", fun _ => none, fun _ => none⟩
        ⟨true, some ⟨"a", some "r", 100⟩⟩ ⟨none, [], []⟩ none).1 = none ∧
    (refresh_token ⟨"u", fun _ => none, fun _ => none⟩
        ⟨true, some ⟨"a", some "r", 100⟩⟩ ⟨none, [], []⟩ none).2.1 =
      { authenticated := false, token_info := none } :=
  refresh_token_exchange_exception ⟨"u", fun _ => none, fun _ => none⟩
    ⟨true, some ⟨"a", some "r", 100⟩⟩ ⟨none, [], []⟩ none
    ⟨"a", some "r", 100⟩ "r" rfl rfl rfl

/-- C7: refresh with no record to refresh (no argument and none held), or with
a record lacking a refresh token, returns `none`, flips to unauthenticated
with no held token, and never touches the stores (in particular `save` is not
called). -/
theorem refresh_token_missing_refresh (oauth : OAuthClient) (s : AuthState)
    (st : Stores) (arg : Option TokenRecord)
    (h : ∀ t, token_to_refresh s arg = some t → t.refresh_token = none) :
    (refresh_token oauth s st arg).1 = none ∧
    (refresh_token oauth s st arg).2.1 =
      { authenticated := false, token_info := none } ∧
    (refresh_token oauth s st arg).2.2 = st := by
  rcases hm : token_to_refresh s arg with _ | t
  · simp [refresh_token, hm]
  · simp [refresh_token, hm, h t hm]

/-- C7 witness. -/
theorem refresh_token_missing_refresh_witness :
    (refresh_token ⟨"u", fun _ => none, fun _ => none⟩
        ⟨false, none⟩ ⟨none, [], []⟩ none).1 = none ∧
    (refresh_token ⟨"u", fun _ => none, fun _ => none⟩
        ⟨false, none⟩ ⟨none, [], []⟩ none).2.1 =
      { authenticated := false, token_info := none } ∧
    (refresh_token ⟨"u", fun _ => none, fun _ => none⟩
        ⟨false, none⟩ ⟨none, [], []⟩ none).2.2 = ⟨none, [], []⟩ :=
  refresh_token_missing_refresh ⟨"u", fun _ => none, fun _ => none⟩
    ⟨false, none⟩ ⟨none, [], []⟩ none (fun t ht => by cases ht)

/-- C3: a code the OAuth client rejects makes `handle_callback` return
`false`, leaves the stores untouched (the save is never reached, so any
previously persisted record is unchanged), and a subsequent
`is_authenticated` — with any OAuth client and at any time — answers
`false`. -/
theorem handle_callback_rejected (oauth oauth2 : OAuthClient) (now : Int)
    (s : AuthState) (st : Stores) (code : String)
    (hrej : oauth.get_access_token code = none) :
    (handle_callback oauth s st code).1 = false ∧
    (handle_callback oauth s st code).2.2 = st ∧
    (is_authenticated oauth2 now (handle_callback oauth s st code).2.1
      (handle_callback oauth s st code).2.2).1 = false := by
  simp [handle_callback, hrej, is_authenticated]

/-- C3 witness. -/
theorem handle_callback_rejected_witness :
    (handle_callback ⟨"u", fun _ => none, fun _ => none⟩
        ⟨true, some ⟨"a", some "r", 100⟩⟩
        ⟨some ⟨"a", some "r", 100⟩, [], []⟩ "badcode").1 = false ∧
    (handle_callback ⟨"u", fun _ => none, fun _ => none⟩
        ⟨true, some ⟨"a", some "r", 100⟩⟩
        ⟨some ⟨"a", some "r", 100⟩, [], []⟩ "badcode").2.2 =
      ⟨some ⟨"a", some "r", 100⟩, [], []⟩ ∧
    (is_authenticated ⟨"u", fun _ => none, fun _ => none⟩ 0
      (handle_callback ⟨"u", fun _ => none, fun _ => none⟩
        ⟨true, some ⟨"a", some "r", 100⟩⟩
        ⟨some ⟨"a", some "r", 100⟩, [], []⟩ "badcode").2.1
      (handle_callback ⟨"u", fun _ => none, fun _ => none⟩
        ⟨true, some ⟨"a", some "r", 100⟩⟩
        ⟨some ⟨"a", some "r", 100⟩, [], []⟩ "badcode").2.2).1 = false :=
  handle_callback_rejected ⟨"u", fun _ => none, fun _ => none⟩
    ⟨"u", fun _ => none, fun _ => none⟩ 0
    ⟨true, some ⟨"a", some "r", 100⟩⟩
    ⟨some ⟨"a", some "r", 100⟩, [], []⟩ "badcode" rfl

/-- C1: on a held, authenticated record that is stale but whose refresh token
the OAuth client accepts, `get_token` returns the access token of the newly
refreshed record (not the old one), and the refreshed record is saved to the
Token Store exactly once: the save trace grows by exactly that one record and
the store now holds it. -/
theorem get_token_stale_refreshable (oauth : OAuthClient) (now : Int)
    (s : AuthState) (st : Stores) (t nt : TokenRecord) (rt : String)
    (hauth : s.authenticated = true) (hheld : s.token_info = some t)
    (hstale : is_token_expired t now = true)
    (hrt : t.refresh_token = some rt)
    (hok : oauth.refresh_access_token rt = some nt) :
    (get_token oauth now s st).1 = some nt.access_token ∧
    (get_token oauth now s st).2.2.saves = st.saves ++ [nt] ∧
    (get_token oauth now s st).2.2.token_store = some nt := by
  simp [get_token, refresh_token, token_to_refresh, hauth, hheld, hstale, hrt, hok]

/-- C1 witness. -/
theorem get_token_stale_refreshable_witness :
    (get_token ⟨"u", fun _ => none, fun _ => some ⟨"new", some "r2", 5000⟩⟩ 1000
        ⟨true, some ⟨"old", some "r", 0⟩⟩ ⟨some ⟨"old", some "r", 0⟩, [], []⟩).1 =
      some "new" ∧
    (get_token ⟨"u", fun _ => none, fun _ => some ⟨"new", some "r2", 5000⟩⟩ 1000
        ⟨true, some ⟨"old", some "r", 0⟩⟩
        ⟨some ⟨"old", some "r", 0⟩, [], []⟩).2.2.saves =
      [] ++ [⟨"new", some "r2", 5000⟩] ∧
    (get_token ⟨"u", fun _ => none, fun _ => some ⟨"new", some "r2", 5000⟩⟩ 1000
        ⟨true, some ⟨"old", some "r", 0⟩⟩
        ⟨some ⟨"old", some "r", 0⟩, [], []⟩).2.2.token_store =
      some ⟨"new", some "r2", 5000⟩ :=
  get_token_stale_refreshable ⟨"u", fun _ => none, fun _ => some ⟨"new", some "r2", 5000⟩⟩
    1000 ⟨true, some ⟨"old", some "r", 0⟩⟩ ⟨some ⟨"old", some "r", 0⟩, [], []⟩
    ⟨"old", some "r", 0⟩ ⟨"new", some "r2", 5000⟩ "r" rfl rfl (by decide) rfl rfl

/-- C4 counterexample: the OAuth client accepts the code but the exchanged
record is already stale (expires at 0, queried at 1000) and carries no
refresh token; `handle_callback` returns `true` and persists exactly that
record, yet the subsequent `is_authenticated` returns `false` — so the
claim's "a subsequent `is_authenticated()` returns true" fails at this
input. -/
theorem handle_callback_accepted_counterexample :
    (handle_callback ⟨"u", fun _ => some ⟨"at", none, 0⟩, fun _ => none⟩
        ⟨false, none⟩ ⟨none, [], []⟩ "code").1 = true ∧
    (handle_callback ⟨"u", fun _ => some ⟨"at", none, 0⟩, fun _ => none⟩
        ⟨false, none⟩ ⟨none, [], []⟩ "code").2.2.token_store =
      some ⟨"at", none, 0⟩ ∧
    (is_authenticated ⟨"u", fun _ => some ⟨"at", none, 0⟩, fun _ => none⟩ 1000
      (handle_callback ⟨"u", fun _ => some ⟨"at", none, 0⟩, fun _ => none⟩
        ⟨false, none⟩ ⟨none, [], []⟩ "code").2.1
      (handle_callback ⟨"u", fun _ => some ⟨"at", none, 0⟩, fun _ => none⟩
        ⟨false, none⟩ ⟨none, [], []⟩ "code").2.2).1 = false := by
  refine ⟨rfl, rfl, ?_⟩
  simp [handle_callback, is_authenticated, refresh_token, token_to_refresh,
    is_token_expired]

/-- C4 amended: for every code the OAuth client accepts, `handle_callback`
returns `true` and the record saved to the Token Store equals the record the
exchange returned; and provided that record is not already stale at the query
time, a subsequent `is_authenticated` returns `true`. -/
theorem handle_callback_accepted (oauth oauth2 : OAuthClient) (now : Int)
    (s : AuthState) (st : Stores) (code : String) (tok : TokenRecord)
    (hacc : oauth.get_access_token code = some tok)
    (hfresh : is_token_expired tok now = false) :
    (handle_callback oauth s st code).1 = true ∧
    (handle_callback oauth s st code).2.2.token_store = some tok ∧
    (handle_callback oauth s st code).2.2.saves = st.saves ++ [tok] ∧
    (is_authenticated oauth2 now (handle_callback oauth s st code).2.1
      (handle_callback oauth s st code).2.2).1 = true := by
  simp [handle_callback, hacc, is_authenticated, hfresh]

/-- C4 witness. -/
theorem handle_callback_accepted_witness :
    (handle_callback ⟨"u", fun _ => some ⟨"at", some "r", 5000⟩, fun _ => none⟩
        ⟨false, none⟩ ⟨none, [], []⟩ "code").1 = true ∧
    (handle_callback ⟨"u", fun _ => some ⟨"at", some "r", 5000⟩, fun _ => none⟩
        ⟨false, none⟩ ⟨none, [], []⟩ "code").2.2.token_store =
      some ⟨"at", some "r", 5000⟩ ∧
    (handle_callback ⟨"u", fun _ => some ⟨"at", some "r", 5000⟩, fun _ => none⟩
        ⟨false, none⟩ ⟨none, [], []⟩ "code").2.2.saves =
      [] ++ [⟨"at", some "r", 5000⟩] ∧
    (is_authenticated ⟨"u", fun _ => some ⟨"at", some "r", 5000⟩, fun _ => none⟩ 1000
      (handle_callback ⟨"u", fun _ => some ⟨"at", some "r", 5000⟩, fun _ => none⟩
        ⟨false, none⟩ ⟨none, [], []⟩ "code").2.1
      (handle_callback ⟨"u", fun _ => some ⟨"at", some "r", 5000⟩, fun _ => none⟩
        ⟨false, none⟩ ⟨none, [], []⟩ "code").2.2).1 = true :=
  handle_callback_accepted ⟨"u", fun _ => some ⟨"at", some "r", 5000⟩, fun _ => none⟩
    ⟨"u", fun _ => some ⟨"at", some "r", 5000⟩, fun _ => none⟩ 1000
    ⟨false, none⟩ ⟨none, [], []⟩ "code" ⟨"at", some "r", 5000⟩ rfl (by decide)

/-- C6 counterexample: with client id and secret supplied and the redirect
URI absent from both the explicit arguments and the environment, construction
does not fail naming `SPOTIFY_REDIRECT_URI`: it succeeds with the default
redirect URI. -/
theorem init_missing_redirect_counterexample :
    init (some "id") (some "secret") none (fun _ => none) =
      Except.ok ("id", "secret", "http://127.0.0.1:8000/callback") := rfl

/-- C6 amended: when the redirect URI is absent from both the explicit
arguments and the environment, it resolves to the default and never causes
failure nor appears among the missing names: construction fails exactly when
the resolved client id or client secret is missing, and the error then names
exactly the missing ones among `SPOTIFY_CLIENT_ID` and
`SPOTIFY_CLIENT_SECRET`. -/
theorem init_missing_fields (cid csec : Option String)
    (getenv : String → Option String)
    (hredirect : getenv "SPOTIFY_REDIRECT_URI" = none) :
    (∀ m, init cid csec none getenv = Except.error m →
      m = (if truthy (py_or cid (getenv "SPOTIFY_CLIENT_ID")) then []
           else ["SPOTIFY_CLIENT_ID"]) ++
          (if truthy (py_or csec (getenv "SPOTIFY_CLIENT_SECRET")) then []
           else ["SPOTIFY_CLIENT_SECRET"])) ∧
    ((∃ m, init cid csec none getenv = Except.error m) ↔
      (truthy (py_or cid (getenv "SPOTIFY_CLIENT_ID")) = false ∨
       truthy (py_or csec (getenv "SPOTIFY_CLIENT_SECRET")) = false)) := by
  have hru : truthy (py_or none
      (some ((getenv "SPOTIFY_REDIRECT_URI").getD default_redirect_uri))) = true := by
    rw [hredirect]
    decide
  by_cases h1 : truthy (py_or cid (getenv "SPOTIFY_CLIENT_ID")) <;>
    by_cases h2 : truthy (py_or csec (getenv "SPOTIFY_CLIENT_SECRET")) <;>
    simp [init, h1, h2, hru]

/-- C8 counterexample: when the Token Store's delete raises, `disconnect`
returns `false` and the previously persisted record is still in the store, so
`load()` afterwards does not return absent — the claim's unconditional
"load() returns absent" clause fails at this input. -/
theorem disconnect_counterexample :
    (disconnect ⟨true, some ⟨"a", some "r", 100⟩⟩
        ⟨some ⟨"a", some "r", 100⟩, [], ["entry"]⟩ true false).1 = false ∧
    load_token (disconnect ⟨true, some ⟨"a", some "r", 100⟩⟩
        ⟨some ⟨"a", some "r", 100⟩, [], ["entry"]⟩ true false).2.2 =
      some ⟨"a", some "r", 100⟩ :=
  ⟨rfl, rfl⟩

/-- C8 amended: when neither store operation raises, `disconnect` returns
`true` and afterwards the Token Store's `load()` returns absent, the Cache
Store is cleared and the in-memory state is reset, regardless of prior state;
when a store operation raises, `disconnect` returns `false` instead of
propagating the exception (the model is total). -/
theorem disconnect_spec (s : AuthState) (st : Stores) (dr cr : Bool) :
    (dr = false → cr = false →
      (disconnect s st dr cr).1 = true ∧
      load_token (disconnect s st dr cr).2.2 = none ∧
      (disconnect s st dr cr).2.2.cache = [] ∧
      (disconnect s st dr cr).2.1 = { authenticated := false, token_info := none }) ∧
    (dr = true ∨ cr = true → (disconnect s st dr cr).1 = false) := by
  cases dr <;> cases cr <;> simp [disconnect, load_token]

/-- C8 amended witness. -/
theorem disconnect_spec_witness :
    (disconnect ⟨true, some ⟨"a", some "r", 100⟩⟩
        ⟨some ⟨"a", some "r", 100⟩, [], ["entry"]⟩ false false).1 = true ∧
    load_token (disconnect ⟨true, some ⟨"a", some "r", 100⟩⟩
        ⟨some ⟨"a", some "r", 100⟩, [], ["entry"]⟩ false false).2.2 = none ∧
    (disconnect ⟨true, some ⟨"a", some "r", 100⟩⟩
        ⟨some ⟨"a", some "r", 100⟩, [], ["entry"]⟩ false false).2.2.cache = [] ∧
    (disconnect ⟨true, some ⟨"a", some "r", 100⟩⟩
        ⟨some ⟨"a", some "r", 100⟩, [], ["entry"]⟩ false false).2.1 =
      { authenticated := false, token_info := none } :=
  (disconnect_spec ⟨true, some ⟨"a", some "r", 100⟩⟩
    ⟨some ⟨"a", some "r", 100⟩, [], ["entry"]⟩ false false).1 rfl rfl

/-- C9: under the held-iff-flag invariant (which every public operation
maintains, claim C10), `is_authenticated` answers `true` exactly when a
record is held and it is either not stale or the refresh the call performs
succeeds; and the call can mutate the held token and flag — at the given
concrete input the state after the call differs from the state before. -/
theorem is_authenticated_spec (oauth : OAuthClient) (now : Int) (s : AuthState)
    (st : Stores) (hinv : s.authenticated = s.token_info.isSome) :
    ((is_authenticated oauth now s st).1 = true ↔
      ∃ t, s.token_info = some t ∧
        (is_token_expired t now = false ∨
          (refresh_token oauth s st none).1.isSome = true)) ∧
    (is_authenticated ⟨"u", fun _ => none, fun _ => none⟩ 0
        ⟨true, some ⟨"a", none, 0⟩⟩ ⟨none, [], []⟩).2.1 ≠
      ⟨true, some ⟨"a", none, 0⟩⟩ := by
  constructor
  · rcases hti : s.token_info with _ | t
    · rw [hti] at hinv
      simp at hinv
      simp [is_authenticated, hinv, hti]
    · rw [hti] at hinv
      simp at hinv
      by_cases hexp : is_token_expired t now
      · simp [is_authenticated, hinv, hti, hexp]
      · simp [is_authenticated, hinv, hti, hexp]
  · decide

/-- C9 witness. -/
theorem is_authenticated_spec_witness :
    (is_authenticated ⟨"u", fun _ => none, fun _ => none⟩ 0
        ⟨true, some ⟨"a", some "r", 1000⟩⟩ ⟨none, [], []⟩).1 = true :=
  ((is_authenticated_spec ⟨"u", fun _ => none, fun _ => none⟩ 0
      ⟨true, some ⟨"a", some "r", 1000⟩⟩ ⟨none, [], []⟩ rfl).1).mpr
    ⟨⟨"a", some "r", 1000⟩, rfl, Or.inl (by decide)⟩

/-- `_load_saved_token` leaves the flag equal to whether a record is held,
provided it held on entry. -/
theorem load_saved_token_state_invariant (oauth : OAuthClient) (now : Int)
    (s : AuthState) (st : Stores)
    (hinv : s.authenticated = s.token_info.isSome) :
    ((load_saved_token oauth now s st).1).authenticated =
      ((load_saved_token oauth now s st).1).token_info.isSome := by
  rcases hts : st.token_store with _ | t0
  · simpa [load_saved_token, hts] using hinv
  · by_cases hexp : is_token_expired t0 now
    · rcases hr : (refresh_token oauth s st (some t0)).1 with _ | t
      · have h2 := refresh_token_state_eq oauth s st (some t0)
        rw [hr] at h2
        simp [load_saved_token, hts, hexp, hr, h2]
      · simp [load_saved_token, hts, hexp, hr]
    · simp [load_saved_token, hts, hexp]

/-- C10: every public operation returns with the `_authenticated` flag true
exactly when a `_token_info` record is held: construction establishes the
equivalence, and `get_auth_url`, `handle_callback`, `refresh_token`,
`get_token`, `is_authenticated`, `disconnect` and `clear_cache` each preserve
it. -/
theorem state_invariant_all_public_ops (oauth : OAuthClient) (now : Int)
    (s : AuthState) (st st2 : Stores) (arg : Option TokenRecord)
    (code : String) (cid csec ruri : Option String)
    (getenv : String → Option String) (dr cr : Bool)
    (hinv : s.authenticated = s.token_info.isSome) :
    (∀ r, construct cid csec ruri getenv oauth now st2 = Except.ok r →
      r.1.authenticated = r.1.token_info.isSome) ∧
    ((get_auth_url oauth s st).2.1).authenticated =
      ((get_auth_url oauth s st).2.1).token_info.isSome ∧
    ((handle_callback oauth s st code).2.1).authenticated =
      ((handle_callback oauth s st code).2.1).token_info.isSome ∧
    ((refresh_token oauth s st arg).2.1).authenticated =
      ((refresh_token oauth s st arg).2.1).token_info.isSome ∧
    ((get_token oauth now s st).2.1).authenticated =
      ((get_token oauth now s st).2.1).token_info.isSome ∧
    ((is_authenticated oauth now s st).2.1).authenticated =
      ((is_authenticated oauth now s st).2.1).token_info.isSome ∧
    ((disconnect s st dr cr).2.1).authenticated =
      ((disconnect s st dr cr).2.1).token_info.isSome ∧
    ((clear_cache s st cr).2.1).authenticated =
      ((clear_cache s st cr).2.1).token_info.isSome := by
  refine ⟨?_, ?_, ?_, ?_, ?_, ?_, ?_, ?_⟩
  · intro r h
    rcases hi : init cid csec ruri getenv with m | v <;>
      simp [construct, hi] at h
    rw [← h]
    exact load_saved_token_state_invariant oauth now _ st2 rfl
  · exact hinv
  · rcases hc : oauth.get_access_token code with _ | tok <;>
      simp [handle_callback, hc]
  · rw [refresh_token_state_eq]
  · rcases ha : s.authenticated
    · simpa [get_token, ha] using hinv
    · rcases hti : s.token_info with _ | t
      · simpa [get_token, ha, hti] using hinv
      · by_cases hexp : is_token_expired t now
        · rcases hr : (refresh_token oauth s st none).1 with _ | nt
          · have h2 := refresh_token_state_eq oauth s st none
            rw [hr] at h2
            simp [get_token, ha, hti, hexp, hr, h2]
          · have h2 := refresh_token_state_eq oauth s st none
            rw [hr] at h2
            simp [get_token, ha, hti, hexp, hr, h2]
        · simpa [get_token, ha, hti, hexp] using hinv
  · rcases ha : s.authenticated
    · simpa [is_authenticated, ha] using hinv
    · rcases hti : s.token_info with _ | t
      · simpa [is_authenticated, ha, hti] using hinv
      · by_cases hexp : is_token_expired t now
        · have h2 := refresh_token_state_eq oauth s st none
          simp [is_authenticated, ha, hti, hexp, h2]
        · simpa [is_authenticated, ha, hti, hexp] using hinv
  · cases dr <;> cases cr <;> simpa [disconnect] using hinv
  · cases cr <;> simpa [clear_cache] using hinv

/-- C10 witness. -/
theorem state_invariant_all_public_ops_witness :
    ((get_auth_url ⟨"u", fun _ => none, fun _ => none⟩
        ⟨false, none⟩ ⟨none, [], []⟩).2.1).authenticated =
      ((get_auth_url ⟨"u", fun _ => none, fun _ => none⟩
        ⟨false, none⟩ ⟨none, [], []⟩).2.1).token_info.isSome :=
  (state_invariant_all_public_ops ⟨"u", fun _ => none, fun _ => none⟩ 0
    ⟨false, none⟩ ⟨none, [], []⟩ ⟨none, [], []⟩ none "code"
    none none none (fun _ => none) false false rfl).2.1

/-- C6 amended witness. -/
theorem init_missing_fields_witness :
    (["SPOTIFY_CLIENT_ID"] : List String) =
      (if truthy (py_or none ((fun _ => none : String → Option String)
          "SPOTIFY_CLIENT_ID")) then [] else ["SPOTIFY_CLIENT_ID"]) ++
      (if truthy (py_or (some "s") ((fun _ => none : String → Option String)
          "SPOTIFY_CLIENT_SECRET")) then [] else ["SPOTIFY_CLIENT_SECRET"]) :=
  (init_missing_fields none (some "s") (fun _ => none) rfl).1
    ["SPOTIFY_CLIENT_ID"] rfl

end SpotifyAuth
